import Mathlib

/-! Verification of the gesture slingshot interaction core.

Shallow embedding of the gesture/interaction code of this repository:

* `src/services/handTracking.ts` — pinch classification with hysteresis and
  cursor mapping (`isPinching`, `getCursorPosition`, `getDistance`);
* `src/unnamed/part_000` (the `HandController` component) — the per-frame
  sampling step `predictWebcam` with its 140 ms short-dropout grace window;
* `src/components/SlingshotCanvas.tsx` — the drawing state machine
  (`startDrawing`, `updateDrawing`, `endDrawing`, `handleHandUpdate`, the
  80 ms release-debounce timer) and the particle burst (`createExplosion`).

Coordinates and timestamps are modelled as exact rationals; quantities that
the JavaScript code derives through `Math.sqrt`, `Math.atan2`, `Math.pow` or
`Math.round` are modelled as exact real numbers, so those definitions are
noncomputable (comparisons on them use the classical order on `ℝ`).

-/

/-- A 2-D point, as in `utils/types.ts` (`Point`).  Landmark points are the
normalized `x`/`y` of a detected landmark (their `z` field is never read by
the code modelled here); cursor points are in screen pixels. -/
structure Point where
  x : ℚ
  y : ℚ
deriving DecidableEq, Repr

/-- The per-frame sample `HandInputData` of `utils/types.ts`. -/
structure HandInputData where
  cursor : Point
  isPinching : Bool
  isDetected : Bool
deriving DecidableEq, Repr

/-- The function `getDistance` of `src/services/handTracking.ts`: the Euclidean distance
`Math.sqrt(a*a + b*b)` between two points (only `x` and `y` are used). -/
noncomputable def getDistance (p1 p2 : Point) : ℝ :=
  Real.sqrt (((p1.x - p2.x) * (p1.x - p2.x) + (p1.y - p2.y) * (p1.y - p2.y) : ℚ))

/-- The hysteresis start threshold `START_THRESHOLD = 0.14` of `isPinching`. -/
noncomputable def START_THRESHOLD : ℝ := 14 / 100

/-- The hysteresis release threshold `RELEASE_THRESHOLD = 0.18` of `isPinching`. -/
noncomputable def RELEASE_THRESHOLD : ℝ := 18 / 100

/-- The function `isPinching` of `src/services/handTracking.ts`.  A `null` landmark array
is modelled as `none`; `landmarks[4]`/`landmarks[8]` is modelled by `getD`
with an irrelevant default (the code is only ever called with 21 landmarks,
and our theorems assume the indices are in range). -/
noncomputable def isPinching (landmarks : Option (List Point)) (wasPinching : Bool) : Bool :=
  match landmarks with
  | none => false
  | some lm =>
    if lm.length = 0 then false
    else
      let thumbTip := lm.getD 4 ⟨0, 0⟩
      let indexTip := lm.getD 8 ⟨0, 0⟩
      let distance := getDistance thumbTip indexTip
      if wasPinching then decide (distance < RELEASE_THRESHOLD)
      else decide (distance < START_THRESHOLD)

/-- The function `getCursorPosition` of `src/services/handTracking.ts`: maps the
index-finger tip (landmark 8) to screen coordinates, mirroring the x axis. -/
def getCursorPosition (landmarks : Option (List Point)) (screenWidth screenHeight : ℚ) : Point :=
  match landmarks with
  | none => ⟨0, 0⟩
  | some lm =>
    if lm.length = 0 then ⟨0, 0⟩
    else
      let indexTip := lm.getD 8 ⟨0, 0⟩
      ⟨(1 - indexTip.x) * screenWidth, indexTip.y * screenHeight⟩

/-- The persistent pinch state `handStateRef` of the `HandController`
component (`src/unnamed/part_000`). -/
structure HandState where
  isPinching : Bool
  lastCursor : Point
  lastDetectedAt : ℚ
deriving DecidableEq, Repr

/-- One invocation of `predictWebcam` (`src/unnamed/part_000`, the
`HandController` component), as a pure step: given the detection result for
this frame (the list of landmark sets, or `none`), the persistent state and
the current timestamp `now` (milliseconds), it returns the updated state and
the `HandInputData` sample passed to `onUpdate`.  The scheduling of the next
animation frame is outside the model. -/
noncomputable def predictWebcamStep (results : Option (List (List Point)))
    (st : HandState) (now screenW screenH : ℚ) : HandState × HandInputData :=
  match results with
  | some (landmarks :: _) =>
    let pinching := isPinching (some landmarks) st.isPinching
    let cursor := getCursorPosition (some landmarks) screenW screenH
    let st1 : HandState := ⟨pinching, cursor, now⟩
    (st1, ⟨cursor, pinching, true⟩)
  | _ =>
    let delta := now - st.lastDetectedAt
    let stillDetected := decide (delta < 140)
    let st1 : HandState := if stillDetected then st else { st with isPinching := false }
    (st1, ⟨st.lastCursor, st1.isPinching, stillDetected⟩)

/-- Claim C1: `isPinching` returns `false` on a null or empty landmark list;
on a landmark list containing the thumb tip (index 4) and index tip
(index 8) at Euclidean distance `d`, it returns `true` iff
(`wasPinching` is false and `d < 0.14`) or (`wasPinching` is true and
`d < 0.18`); and any `d` in the band `[0.14, 0.18)` preserves the prior
pinch state. -/
theorem classifyPinch_hysteresis (lm : List Point) (wasP : Bool) (h : 8 < lm.length) :
    (∀ b : Bool, isPinching none b = false ∧ isPinching (some []) b = false) ∧
    (isPinching (some lm) wasP = true ↔
      ((wasP = false ∧ getDistance (lm.getD 4 ⟨0, 0⟩) (lm.getD 8 ⟨0, 0⟩) < 14 / 100) ∨
       (wasP = true ∧ getDistance (lm.getD 4 ⟨0, 0⟩) (lm.getD 8 ⟨0, 0⟩) < 18 / 100))) ∧
    (14 / 100 ≤ getDistance (lm.getD 4 ⟨0, 0⟩) (lm.getD 8 ⟨0, 0⟩) →
      getDistance (lm.getD 4 ⟨0, 0⟩) (lm.getD 8 ⟨0, 0⟩) < 18 / 100 →
      isPinching (some lm) wasP = wasP) := by
  have hne : ¬ lm.length = 0 := by omega
  have hiff : isPinching (some lm) wasP = true ↔
      ((wasP = false ∧ getDistance (lm.getD 4 ⟨0, 0⟩) (lm.getD 8 ⟨0, 0⟩) < 14 / 100) ∨
       (wasP = true ∧ getDistance (lm.getD 4 ⟨0, 0⟩) (lm.getD 8 ⟨0, 0⟩) < 18 / 100)) := by
    cases wasP <;>
      simp [isPinching, hne, START_THRESHOLD, RELEASE_THRESHOLD, List.getD]
  refine ⟨fun b => ⟨rfl, rfl⟩, hiff, ?_⟩
  intro h1 h2
  cases wasP with
  | false =>
    cases hb : isPinching (some lm) false with
    | false => rfl
    | true =>
      rcases hiff.mp hb with ⟨_, hlt⟩ | ⟨hfa, _⟩
      · exact absurd hlt (not_lt.mpr h1)
      · exact absurd hfa (by simp)
  | true => exact hiff.mpr (Or.inr ⟨rfl, h2⟩)

/-- Concrete instantiation of `classifyPinch_hysteresis` on a 9-point
landmark list. -/
theorem classifyPinch_hysteresis_witness :
    (8 < (List.replicate 9 (⟨0, 0⟩ : Point)).length) ∧
    ((∀ b : Bool, isPinching none b = false ∧ isPinching (some []) b = false) ∧
    (isPinching (some (List.replicate 9 (⟨0, 0⟩ : Point))) false = true ↔
      ((false = false ∧ getDistance ((List.replicate 9 (⟨0, 0⟩ : Point)).getD 4 ⟨0, 0⟩)
          ((List.replicate 9 (⟨0, 0⟩ : Point)).getD 8 ⟨0, 0⟩) < 14 / 100) ∨
       (false = true ∧ getDistance ((List.replicate 9 (⟨0, 0⟩ : Point)).getD 4 ⟨0, 0⟩)
          ((List.replicate 9 (⟨0, 0⟩ : Point)).getD 8 ⟨0, 0⟩) < 18 / 100))) ∧
    (14 / 100 ≤ getDistance ((List.replicate 9 (⟨0, 0⟩ : Point)).getD 4 ⟨0, 0⟩)
        ((List.replicate 9 (⟨0, 0⟩ : Point)).getD 8 ⟨0, 0⟩) →
      getDistance ((List.replicate 9 (⟨0, 0⟩ : Point)).getD 4 ⟨0, 0⟩)
        ((List.replicate 9 (⟨0, 0⟩ : Point)).getD 8 ⟨0, 0⟩) < 18 / 100 →
      isPinching (some (List.replicate 9 (⟨0, 0⟩ : Point))) false = false)) :=
  ⟨by decide, classifyPinch_hysteresis (List.replicate 9 ⟨0, 0⟩) false (by decide)⟩

/-- Claim C2: on a frame with no detection, if at least 140 ms have elapsed
since the last detection the sample reports `isDetected = false` and the
stored pinch flag is forced to `false`; if strictly less than 140 ms have
elapsed the sample reports `isDetected = true` with the previously cached
cursor and pinch value, and the stored state is unchanged. -/
theorem sampleFrame_grace (st : HandState) (now screenW screenH : ℚ) :
    (140 ≤ now - st.lastDetectedAt →
      (predictWebcamStep none st now screenW screenH).2.isDetected = false ∧
      (predictWebcamStep none st now screenW screenH).2.isPinching = false ∧
      (predictWebcamStep none st now screenW screenH).2.cursor = st.lastCursor ∧
      (predictWebcamStep none st now screenW screenH).1 = { st with isPinching := false }) ∧
    (now - st.lastDetectedAt < 140 →
      (predictWebcamStep none st now screenW screenH).2.isDetected = true ∧
      (predictWebcamStep none st now screenW screenH).2.cursor = st.lastCursor ∧
      (predictWebcamStep none st now screenW screenH).2.isPinching = st.isPinching ∧
      (predictWebcamStep none st now screenW screenH).1 = st) := by
  constructor
  · intro h140
    have hlt : ¬ (now - st.lastDetectedAt < 140) := not_lt.mpr h140
    simp [predictWebcamStep, hlt]
  · intro hlt
    simp [predictWebcamStep, hlt]

/-- Concrete instantiation of `sampleFrame_grace` at both sides of the
140 ms boundary. -/
theorem sampleFrame_grace_witness :
    ((140 ≤ (200 : ℚ) - (⟨true, ⟨3, 4⟩, 0⟩ : HandState).lastDetectedAt) ∧
      (predictWebcamStep none ⟨true, ⟨3, 4⟩, 0⟩ 200 1 1).2.isDetected = false ∧
      (predictWebcamStep none ⟨true, ⟨3, 4⟩, 0⟩ 200 1 1).2.isPinching = false ∧
      (predictWebcamStep none ⟨true, ⟨3, 4⟩, 0⟩ 200 1 1).2.cursor = (⟨3, 4⟩ : Point) ∧
      (predictWebcamStep none ⟨true, ⟨3, 4⟩, 0⟩ 200 1 1).1 = ⟨false, ⟨3, 4⟩, 0⟩) ∧
    (((100 : ℚ) - (⟨true, ⟨3, 4⟩, 0⟩ : HandState).lastDetectedAt < 140) ∧
      (predictWebcamStep none ⟨true, ⟨3, 4⟩, 0⟩ 100 1 1).2.isDetected = true ∧
      (predictWebcamStep none ⟨true, ⟨3, 4⟩, 0⟩ 100 1 1).2.cursor = (⟨3, 4⟩ : Point) ∧
      (predictWebcamStep none ⟨true, ⟨3, 4⟩, 0⟩ 100 1 1).2.isPinching = true ∧
      (predictWebcamStep none ⟨true, ⟨3, 4⟩, 0⟩ 100 1 1).1 = ⟨true, ⟨3, 4⟩, 0⟩) := by
  have h1 := (sampleFrame_grace ⟨true, ⟨3, 4⟩, 0⟩ 200 1 1).1 (by norm_num)
  have h2 := (sampleFrame_grace ⟨true, ⟨3, 4⟩, 0⟩ 100 1 1).2 (by norm_num)
  exact ⟨⟨by norm_num, h1.1, h1.2.1, h1.2.2.1, h1.2.2.2⟩,
         ⟨by norm_num, h2.1, h2.2.1, h2.2.2.1, h2.2.2.2⟩⟩

/-- The empty string, used as the (never relevant) default of list indexing
in the model of `pickRandomKey`. -/
def emptyKey : String := ""

/-- The SVG `line` element of a drag session (`currentLine`).  `x1`/`y1` are
set once at `startDrawing`; `x2`/`y2` are overwritten by `updateDrawing`
with real-valued coordinates. -/
structure LineEl where
  x1 : ℚ
  y1 : ℚ
  x2 : ℝ
  y2 : ℝ

/-- The SVG `image` element of a drag session (`startImage`), together with
the scale and rotation that `gsap.set` applies to it in `updateDrawing`
(both are identity at creation; the `_short` suffix only selects the tween
path towards the target angle, which is what we record). -/
structure ImageEl where
  x : ℚ
  y : ℚ
  width : ℚ
  height : ℚ
  href : String
  scale : ℝ
  rotationDeg : ℝ

/-- The SVG `circle` anchor element of a drag session (`circle`), with the
scale and rotation applied by `updateDrawing`. -/
structure CircleEl where
  cx : ℚ
  cy : ℚ
  r : ℚ
  scale : ℝ
  rotationDeg : ℝ

/-- One particle burst spawned by `createExplosion`: its position, the pull
distance it was invoked with, and the number of particle images appended to
the container.  The per-particle randomized visuals (emission angle,
velocity, size, tween durations) affect only the render sink and are not
recorded. -/
structure Burst where
  x : ℚ
  y : ℚ
  distance : ℝ
  particles : ℕ

/-- The mutable state of the `SlingshotCanvas` component: the `state` ref of
lines 39-52 (drawing flag, start point, last pull distance, asset maps and
key lists, the three session SVG elements), the `releaseTimeoutRef` debounce
timer (modelled as a pending flag), the `isHandMode` React state, the
`assetsLoaded` flag, the presence of the `canvasRef`/`containerRef` DOM
nodes, and the bursts spawned so far.  Asset maps are association lists
from key to image source. -/
structure CState where
  isDrawing : Bool
  startX : ℚ
  startY : ℚ
  lastDistance : ℝ
  imageKeys : List String
  imageMap : List (String × String)
  explosionKeys : List String
  explosionMap : List (String × String)
  currentLine : Option LineEl
  startImage : Option ImageEl
  circle : Option CircleEl
  releaseTimeoutPending : Bool
  isHandMode : Bool
  assetsLoaded : Bool
  canvasPresent : Bool
  containerPresent : Bool
  bursts : List Burst

/-- The helper `gsap.utils.clamp(lo, hi, v)`: clamps `v` into `[lo, hi]`. -/
noncomputable def gsapClamp (lo hi v : ℝ) : ℝ := min hi (max lo v)

/-- The helper `Math.round`: rounds to the nearest integer, halves towards `+∞`. -/
noncomputable def jsRound (v : ℝ) : ℤ := ⌊v + 1 / 2⌋

/-- The particle count of `createExplosion`
(`Math.round(gsap.utils.clamp(3, 40, distance / 10))`). -/
noncomputable def particleCount (distance : ℝ) : ℤ :=
  jsRound (gsapClamp 3 40 (distance / 10))

/-- The value `Math.atan2(dy, dx)` converted to degrees, as computed in
`updateDrawing` (`Math.atan2(dy, dx) * (180 / Math.PI)`): the argument of
the complex number `dx + dy i`, scaled to degrees. -/
noncomputable def atan2deg (dy dx : ℝ) : ℝ :=
  Complex.arg (Complex.I * dy + dx) * (180 / Real.pi)

/-- The function `createExplosion` of `SlingshotCanvas.tsx`.  Returns unchanged state if
the container ref is absent or no explosion keys are loaded; otherwise
appends a burst of `Math.round(clamp(3, 40, distance / 10))` particles at
`(x, y)`.  `pickRandomKey` is modelled by the oracle `pick`, reduced into
range exactly as `keys[Math.floor(Math.random() * keys.length)]` always is;
a particle is only appended when the picked key resolves in the explosion
asset map (the `if (!original) continue` branch). -/
noncomputable def createExplosion (pick : ℕ → ℕ) (st : CState) (x y : ℚ)
    (distance : ℝ) : CState :=
  if st.containerPresent = false ∨ st.explosionKeys.length = 0 then st
  else
    let count : ℕ := (jsRound (gsapClamp 3 40 (distance / 10))).toNat
    let spawned : ℕ := ((List.range count).filterMap fun i =>
      st.explosionMap.lookup
        (st.explosionKeys.getD (pick i % st.explosionKeys.length) emptyKey)).length
    { st with bursts := st.bursts ++ [⟨x, y, distance, spawned⟩] }

/-- The function `startDrawing` of `SlingshotCanvas.tsx`.  No-op while already drawing,
or when the canvas ref is absent, assets are not loaded, or no image keys
exist; also a no-op when the randomly picked key does not resolve in the
image map.  Otherwise opens the drag session at `(x, y)`: sets the drawing
flag and start point and creates the line, anchor circle and start image
(instruction/hand opacity tweens touch only the render sink). -/
noncomputable def startDrawing (pick : ℕ) (st : CState) (x y : ℚ) : CState :=
  if st.isDrawing = true ∨ st.canvasPresent = false ∨ st.assetsLoaded = false ∨
      st.imageKeys.length = 0 then st
  else
    match st.imageMap.lookup (st.imageKeys.getD (pick % st.imageKeys.length) emptyKey) with
    | none => st
    | some src =>
      { st with
        isDrawing := true
        startX := x
        startY := y
        currentLine := some ⟨x, y, (x : ℝ), (y : ℝ)⟩
        circle := some ⟨x, y, 30, 1, 0⟩
        startImage := some ⟨x - 25, y - 25, 50, 50, src, 1, 0⟩ }

/-- The function `updateDrawing` of `SlingshotCanvas.tsx`.  No-op unless drawing with all
three session elements present.  Otherwise: recomputes the pull distance
`Math.sqrt(dx*dx + dy*dy)`, moves the line end to
`start + delta * (safeDistance - 30) / safeDistance` (collapsed to the
start point inside the 30 px dead zone), applies the eased scale
`clamp(1, 100, (distance / 100) ^ 0.5)` and the rotation `angle - 45` to
the image and circle, and stores the distance in `lastDistance`.  The hand
cursor's own rotation tween touches only the render sink. -/
noncomputable def updateDrawing (st : CState) (x y : ℚ) : CState :=
  match st.isDrawing, st.currentLine, st.startImage, st.circle with
  | true, some line, some img, some circ =>
    let dx : ℚ := x - st.startX
    let dy : ℚ := y - st.startY
    let distance : ℝ := Real.sqrt ((dx * dx + dy * dy : ℚ))
    let safeDistance : ℝ := max distance (1 / 1000)
    let shrink : ℝ := (safeDistance - 30) / safeDistance
    let x2 : ℝ := if distance < 30 then (st.startX : ℝ) else (st.startX : ℝ) + dx * shrink
    let y2 : ℝ := if distance < 30 then (st.startY : ℝ) else (st.startY : ℝ) + dy * shrink
    let angle : ℝ := atan2deg dy dx
    let clamped : ℝ := gsapClamp 1 100 ((distance / 100) ^ ((1 : ℝ) / 2))
    { st with
      currentLine := some { line with x2 := x2, y2 := y2 }
      startImage := some { img with scale := clamped, rotationDeg := angle - 45 }
      circle := some { circ with scale := clamped, rotationDeg := angle - 45 }
      lastDistance := distance }
  | _, _, _, _ => st

/-- The function `endDrawing` of `SlingshotCanvas.tsx`.  No-op unless drawing; otherwise
spawns the explosion at the start point with the stored `lastDistance`,
then closes the session: clears the drawing flag, resets `lastDistance` to
0 and removes the three session elements (the canvas `innerHTML` is
cleared).  Hand-image opacity tweens touch only the render sink. -/
noncomputable def endDrawing (pick : ℕ → ℕ) (st : CState) : CState :=
  if st.isDrawing then
    let st1 := createExplosion pick st st.startX st.startY st.lastDistance
    { st1 with
      isDrawing := false
      lastDistance := 0
      currentLine := none
      startImage := none
      circle := none }
  else st

/-- The function `handleHandUpdate` of `SlingshotCanvas.tsx`: processes one gesture
sample.  Ignored when gesture mode is off.  A confident pinch cancels any
pending release timer; a detected pinch starts the drag if idle and updates
it while drawing; otherwise a release condition observed while drawing arms
the 80 ms release-debounce timer if none is pending.  (Cursor setters and
hand-opacity tweens touch only the render sink.) -/
noncomputable def handleHandUpdate (pick : ℕ) (st : CState) (d : HandInputData) : CState :=
  if st.isHandMode then
    let st0 := if d.isDetected && d.isPinching && st.releaseTimeoutPending then
        { st with releaseTimeoutPending := false } else st
    if d.isDetected && d.isPinching then
      let st1 := if st0.isDrawing = false then startDrawing pick st0 d.cursor.x d.cursor.y
        else st0
      if st1.isDrawing then updateDrawing st1 d.cursor.x d.cursor.y else st1
    else
      if st0.isDrawing && !st0.releaseTimeoutPending then
        { st0 with releaseTimeoutPending := true }
      else st0
  else st

/-- The release-debounce timer firing: the `window.setTimeout` callback of
`handleHandUpdate` runs `endDrawing` and clears `releaseTimeoutRef`.  A
cancelled (non-pending) timer never fires, so firing is modelled only on a
pending timer and is the identity otherwise. -/
noncomputable def timerFire (pick : ℕ → ℕ) (st : CState) : CState :=
  if st.releaseTimeoutPending then
    { endDrawing pick st with releaseTimeoutPending := false }
  else st

/-- The `setIsHandMode` button handler: flips the `isHandMode` state.  No
effect of `SlingshotCanvas` watches `isHandMode` to clear the release
timer, so the pending flag is untouched (the mouse-observer effect at lines
384-411 only creates/kills the pointer observer). -/
def setHandMode (b : Bool) (st : CState) : CState := { st with isHandMode := b }

/-- The cleanup of the initialization effect of `SlingshotCanvas` (lines
112-118), which runs when the component unmounts: clears any pending
release-debounce timer. -/
def unmountCleanup (st : CState) : CState := { st with releaseTimeoutPending := false }

/-- The initial `SlingshotCanvas` state: the `state` ref initializer (lines
39-52) with empty asset maps, `isHandMode`/`assetsLoaded` false, no pending
timer, and the DOM refs attached. -/
noncomputable def initialState : CState :=
  { isDrawing := false
    startX := 0
    startY := 0
    lastDistance := 0
    imageKeys := []
    imageMap := []
    explosionKeys := []
    explosionMap := []
    currentLine := none
    startImage := none
    circle := none
    releaseTimeoutPending := false
    isHandMode := false
    assetsLoaded := false
    canvasPresent := true
    containerPresent := true
    bursts := [] }

/-- The session-visuals invariant of claim C9: the drawing flag is set
exactly when the line, start image and anchor circle all exist. -/
def VisualInv (st : CState) : Prop :=
  st.isDrawing = true ↔
    (st.currentLine.isSome = true ∧ st.startImage.isSome = true ∧ st.circle.isSome = true)

/-- The function `updateDrawing` never changes the drawing flag. -/
theorem updateDrawing_isDrawing (st : CState) (x y : ℚ) :
    (updateDrawing st x y).isDrawing = st.isDrawing := by
  unfold updateDrawing; split <;> rfl

/-- The function `updateDrawing` never touches the release-debounce timer. -/
theorem updateDrawing_releaseTimeoutPending (st : CState) (x y : ℚ) :
    (updateDrawing st x y).releaseTimeoutPending = st.releaseTimeoutPending := by
  unfold updateDrawing; split <;> rfl

/-- The function `startDrawing` never touches the release-debounce timer. -/
theorem startDrawing_releaseTimeoutPending (pick : ℕ) (st : CState) (x y : ℚ) :
    (startDrawing pick st x y).releaseTimeoutPending = st.releaseTimeoutPending := by
  unfold startDrawing; split
  · rfl
  · split <;> rfl

/-- A timer that is not armed never fires. -/
theorem timerFire_not_pending (p : ℕ → ℕ) (st : CState)
    (h : st.releaseTimeoutPending = false) : timerFire p st = st := by
  unfold timerFire; rw [h]; simp

/-- After `endDrawing` the drawing flag is always clear. -/
theorem endDrawing_isDrawing (p : ℕ → ℕ) (st : CState) :
    (endDrawing p st).isDrawing = false := by
  unfold endDrawing; split
  · rfl
  · simp_all

/-- Claim C4 helper: `startDrawing` while already drawing is the identity. -/
theorem startDrawing_noop (pick : ℕ) (st : CState) (x y : ℚ)
    (h : st.isDrawing = true) : startDrawing pick st x y = st := by
  unfold startDrawing; rw [if_pos (Or.inl h)]

/-- Claim C4 helper: `updateDrawing` while idle is the identity. -/
theorem updateDrawing_noop (st : CState) (x y : ℚ)
    (h : st.isDrawing = false) : updateDrawing st x y = st := by
  unfold updateDrawing; split <;> simp_all

/-- Claim C4 helper: `endDrawing` while idle is the identity. -/
theorem endDrawing_noop (p : ℕ → ℕ) (st : CState)
    (h : st.isDrawing = false) : endDrawing p st = st := by
  unfold endDrawing; rw [h]; simp

/-- Claim C3: in gesture mode, a release condition first observed while
drawing (timer not yet armed) arms the 80 ms debounce timer and changes
nothing else; a subsequent detected-and-pinching sample cancels the timer
(so firing it is impossible and the session is still drawing); and a
pending timer that does fire runs `endDrawing`, returning the session to
idle. -/
theorem gesture_release_debounce (p : ℕ → ℕ) (pick : ℕ) (st : CState)
    (d : HandInputData) (hmode : st.isHandMode = true) :
    (st.isDrawing = true → st.releaseTimeoutPending = false →
      (d.isDetected && d.isPinching) = false →
      handleHandUpdate pick st d = { st with releaseTimeoutPending := true }) ∧
    (st.releaseTimeoutPending = true → d.isDetected = true → d.isPinching = true →
      ((handleHandUpdate pick st d).releaseTimeoutPending = false ∧
       (st.isDrawing = true → (handleHandUpdate pick st d).isDrawing = true) ∧
       timerFire p (handleHandUpdate pick st d) = handleHandUpdate pick st d)) ∧
    (st.releaseTimeoutPending = true → st.isDrawing = true →
      (timerFire p st).isDrawing = false ∧ (timerFire p st).releaseTimeoutPending = false) := by
  refine ⟨?_, ?_, ?_⟩
  · intro hD hP hRel
    cases hdet : d.isDetected with
    | true =>
      cases hpin : d.isPinching with
      | true => rw [hdet, hpin] at hRel; simp at hRel
      | false => simp [handleHandUpdate, hmode, hdet, hpin, hD, hP]
    | false => simp [handleHandUpdate, hmode, hdet, hD, hP]
  · intro hP hdet hpin
    cases hD : st.isDrawing with
    | true =>
      have hred : handleHandUpdate pick st d =
          updateDrawing { st with releaseTimeoutPending := false } d.cursor.x d.cursor.y := by
        simp [handleHandUpdate, hmode, hdet, hpin, hP, hD]
      refine ⟨?_, fun _ => ?_, ?_⟩
      · rw [hred, updateDrawing_releaseTimeoutPending]
      · rw [hred, updateDrawing_isDrawing]; exact hD
      · apply timerFire_not_pending
        rw [hred, updateDrawing_releaseTimeoutPending]
    | false =>
      have hred : handleHandUpdate pick st d =
          (if (startDrawing pick { st with releaseTimeoutPending := false }
                d.cursor.x d.cursor.y).isDrawing
           then updateDrawing (startDrawing pick { st with releaseTimeoutPending := false }
                d.cursor.x d.cursor.y) d.cursor.x d.cursor.y
           else startDrawing pick { st with releaseTimeoutPending := false }
                d.cursor.x d.cursor.y) := by
        simp [handleHandUpdate, hmode, hdet, hpin, hP, hD]
      have hpend : (handleHandUpdate pick st d).releaseTimeoutPending = false := by
        rw [hred]
        split
        · rw [updateDrawing_releaseTimeoutPending, startDrawing_releaseTimeoutPending]
        · rw [startDrawing_releaseTimeoutPending]
      refine ⟨hpend, ?_, timerFire_not_pending p _ hpend⟩
      intro hcontra
      exact absurd hcontra (by simp)
  · intro hP hD
    unfold timerFire
    rw [hP, if_pos rfl]
    exact ⟨endDrawing_isDrawing p st, rfl⟩

/-- A concrete reachable-shaped state with an open drag session, used to
instantiate the session theorems. -/
noncomputable def stDrawing : CState :=
  { isDrawing := true
    startX := 0
    startY := 0
    lastDistance := 0
    imageKeys := [emptyKey]
    imageMap := [(emptyKey, emptyKey)]
    explosionKeys := [emptyKey]
    explosionMap := [(emptyKey, emptyKey)]
    currentLine := some ⟨0, 0, 0, 0⟩
    startImage := some ⟨-25, -25, 50, 50, emptyKey, 1, 0⟩
    circle := some ⟨0, 0, 30, 1, 0⟩
    releaseTimeoutPending := false
    isHandMode := true
    assetsLoaded := true
    canvasPresent := true
    containerPresent := true
    bursts := [] }

/-- Concrete instantiation of `gesture_release_debounce`: a release sample
seen while drawing arms the timer and changes nothing else. -/
theorem gesture_release_debounce_witness :
    stDrawing.isHandMode = true ∧ stDrawing.isDrawing = true ∧
    stDrawing.releaseTimeoutPending = false ∧
    handleHandUpdate 0 stDrawing ⟨⟨1, 2⟩, false, false⟩ =
      { stDrawing with releaseTimeoutPending := true } := by
  have h := (gesture_release_debounce (fun _ => 0) 0 stDrawing
    ⟨⟨1, 2⟩, false, false⟩ rfl).1 rfl rfl rfl
  exact ⟨rfl, rfl, rfl, h⟩

/-- Claim C4: at most one drag session is ever open — `startDrawing` while
already drawing is a no-op (no new session, origin not moved), and
`updateDrawing`/`endDrawing` while idle are no-ops. -/
theorem single_drag_session (p : ℕ → ℕ) (pick : ℕ) (st : CState) (x y : ℚ) :
    (st.isDrawing = true → startDrawing pick st x y = st) ∧
    (st.isDrawing = false → updateDrawing st x y = st ∧ endDrawing p st = st) :=
  ⟨fun h => startDrawing_noop pick st x y h,
   fun h => ⟨updateDrawing_noop st x y h, endDrawing_noop p st h⟩⟩

/-- Concrete instantiation of `single_drag_session` on a drawing state and
on the initial (idle) state. -/
theorem single_drag_session_witness :
    (stDrawing.isDrawing = true ∧ startDrawing 0 stDrawing 7 8 = stDrawing) ∧
    (initialState.isDrawing = false ∧ updateDrawing initialState 7 8 = initialState ∧
      endDrawing (fun _ => 0) initialState = initialState) :=
  ⟨⟨rfl, (single_drag_session (fun _ => 0) 0 stDrawing 7 8).1 rfl⟩,
   ⟨rfl, (single_drag_session (fun _ => 0) 0 initialState 7 8).2 rfl⟩⟩

/-- Claim C8: with an open session, `updateDrawing` with a fixed point is
idempotent on the whole session state — a second call with the same point
leaves the stored pull distance, derived angle and all visuals unchanged. -/
theorem updateDraw_idempotent (st : CState) (x y : ℚ) (h : st.isDrawing = true)
    (hl : st.currentLine.isSome = true) (hi : st.startImage.isSome = true)
    (hc : st.circle.isSome = true) :
    updateDrawing (updateDrawing st x y) x y = updateDrawing st x y := by
  obtain ⟨isD, sx, sy, ld, ik, im, ek, em, cl, si, ci, pend, hm, al, cp, ctp, bs⟩ := st
  dsimp only at h hl hi hc
  subst h
  cases cl with
  | none => simp at hl
  | some line =>
    cases si with
    | none => simp at hi
    | some img =>
      cases ci with
      | none => simp at hc
      | some circ => rfl

/-- Concrete instantiation of `updateDraw_idempotent`. -/
theorem updateDraw_idempotent_witness :
    (stDrawing.isDrawing = true ∧ stDrawing.currentLine.isSome = true ∧
      stDrawing.startImage.isSome = true ∧ stDrawing.circle.isSome = true) ∧
    updateDrawing (updateDrawing stDrawing 50 60) 50 60 = updateDrawing stDrawing 50 60 :=
  ⟨⟨rfl, rfl, rfl, rfl⟩, updateDraw_idempotent stDrawing 50 60 rfl rfl rfl rfl⟩

/-- The function `startDrawing` preserves the session-visuals invariant. -/
theorem visualInv_startDrawing (pick : ℕ) (st : CState) (x y : ℚ)
    (h : VisualInv st) : VisualInv (startDrawing pick st x y) := by
  unfold startDrawing
  split
  · exact h
  · split
    · exact h
    · simp [VisualInv]

/-- The function `updateDrawing` preserves the session-visuals invariant. -/
theorem visualInv_updateDrawing (st : CState) (x y : ℚ)
    (h : VisualInv st) : VisualInv (updateDrawing st x y) := by
  unfold updateDrawing
  split
  · rename_i hD hline himg hcirc
    simp [VisualInv, hD]
  · exact h

/-- The function `endDrawing` preserves the session-visuals invariant. -/
theorem visualInv_endDrawing (p : ℕ → ℕ) (st : CState)
    (h : VisualInv st) : VisualInv (endDrawing p st) := by
  unfold endDrawing
  split
  · simp [VisualInv]
  · exact h

/-- The pinch path of `handleHandUpdate` (start if idle, then update if
drawing) preserves the session-visuals invariant. -/
theorem visualInv_pinchPath (pick : ℕ) (st0 : CState) (x y : ℚ) (h0 : VisualInv st0) :
    VisualInv (if (if st0.isDrawing = false then startDrawing pick st0 x y else st0).isDrawing
      then updateDrawing (if st0.isDrawing = false then startDrawing pick st0 x y else st0) x y
      else (if st0.isDrawing = false then startDrawing pick st0 x y else st0)) := by
  split
  · split
    · exact visualInv_updateDrawing _ x y (visualInv_startDrawing pick st0 x y h0)
    · exact visualInv_startDrawing pick st0 x y h0
  · split
    · exact visualInv_updateDrawing _ x y h0
    · exact h0

/-- The release path of `handleHandUpdate` (arm the debounce timer if
drawing and not already pending) preserves the session-visuals invariant. -/
theorem visualInv_releasePath (st0 : CState) (h0 : VisualInv st0) :
    VisualInv (if st0.isDrawing && !st0.releaseTimeoutPending then
      { st0 with releaseTimeoutPending := true } else st0) := by
  split
  · simpa [VisualInv] using h0
  · exact h0

/-- The function `handleHandUpdate` preserves the session-visuals invariant. -/
theorem visualInv_handleHandUpdate (pick : ℕ) (st : CState) (d : HandInputData)
    (h : VisualInv st) : VisualInv (handleHandUpdate pick st d) := by
  unfold handleHandUpdate
  by_cases hmode : st.isHandMode = true
  · rw [if_pos hmode]
    dsimp only
    cases hpin : (d.isDetected && d.isPinching) with
    | true =>
      rw [if_pos rfl]
      refine visualInv_pinchPath pick _ d.cursor.x d.cursor.y ?_
      split
      · simpa [VisualInv] using h
      · exact h
    | false =>
      rw [if_neg (by simp)]
      refine visualInv_releasePath _ ?_
      split
      · simpa [VisualInv] using h
      · exact h
  · rw [if_neg hmode]
    exact h

/-- Claim C9: the initial state is idle with no session visuals, and every
operation — `startDrawing`, `updateDrawing`, `endDrawing` and the gesture
handler invoking them — preserves the invariant that the drawing flag is
set exactly when the line, start image and anchor circle all exist. -/
theorem drawing_visuals_invariant (pick : ℕ) (p : ℕ → ℕ) (st : CState)
    (x y : ℚ) (d : HandInputData) (h : VisualInv st) :
    (initialState.isDrawing = false ∧ initialState.currentLine = none ∧
      initialState.startImage = none ∧ initialState.circle = none ∧
      VisualInv initialState) ∧
    VisualInv (startDrawing pick st x y) ∧
    VisualInv (updateDrawing st x y) ∧
    VisualInv (endDrawing p st) ∧
    VisualInv (handleHandUpdate pick st d) :=
  ⟨⟨rfl, rfl, rfl, rfl, by simp [VisualInv, initialState]⟩,
   visualInv_startDrawing pick st x y h,
   visualInv_updateDrawing st x y h,
   visualInv_endDrawing p st h,
   visualInv_handleHandUpdate pick st d h⟩

/-- Concrete instantiation of `drawing_visuals_invariant` on a state with
an open session. -/
theorem drawing_visuals_invariant_witness :
    VisualInv stDrawing ∧ VisualInv (endDrawing (fun _ => 0) stDrawing) ∧
    VisualInv (handleHandUpdate 0 stDrawing ⟨⟨1, 2⟩, true, true⟩) := by
  have hInv : VisualInv stDrawing := by simp [VisualInv, stDrawing]
  have h := drawing_visuals_invariant 0 (fun _ => 0) stDrawing 1 2
    ⟨⟨1, 2⟩, true, true⟩ hInv
  exact ⟨hInv, h.2.2.2.1, h.2.2.2.2⟩

/-- The particle count at pull distance 0 is the minimum, 3. -/
theorem particleCount_zero : particleCount 0 = 3 := by
  unfold particleCount jsRound gsapClamp
  have h1 : max (3 : ℝ) (0 / 10) = 3 := by norm_num
  have h2 : min (40 : ℝ) 3 = 3 := by norm_num
  rw [h1, h2, Int.floor_eq_iff]
  norm_num

/-- The particle count at pull distance 500 saturates at 40 (not 50). -/
theorem particleCount_saturates : particleCount 500 = 40 := by
  unfold particleCount jsRound gsapClamp
  have h1 : max (3 : ℝ) (500 / 10) = 50 := by norm_num
  have h2 : min (40 : ℝ) 50 = 40 := by norm_num
  rw [h1, h2, Int.floor_eq_iff]
  norm_num

/-- The particle count is monotone non-decreasing in the pull distance. -/
theorem particleCount_mono (d₁ d₂ : ℝ) (h : d₁ ≤ d₂) :
    particleCount d₁ ≤ particleCount d₂ := by
  unfold particleCount jsRound gsapClamp
  apply Int.floor_le_floor
  have : d₁ / 10 ≤ d₂ / 10 := by linarith
  exact add_le_add_right (min_le_min le_rfl (max_le_max le_rfl this)) _

/-- The particle count always lies in `[3, 40]`. -/
theorem particleCount_bounds (d : ℝ) :
    3 ≤ particleCount d ∧ particleCount d ≤ 40 := by
  unfold particleCount jsRound gsapClamp
  constructor
  · rw [Int.le_floor]
    have h3 : (3 : ℝ) ≤ min 40 (max 3 (d / 10)) :=
      le_min (by norm_num) (le_max_left _ _)
    push_cast
    linarith
  · have h40 : min (40 : ℝ) (max 3 (d / 10)) ≤ 40 := min_le_left _ _
    have hfl : ⌊min (40 : ℝ) (max 3 (d / 10)) + 1 / 2⌋ ≤ ⌊(40 : ℝ) + 1 / 2⌋ :=
      Int.floor_le_floor (by linarith)
    have h405 : ⌊(40 : ℝ) + 1 / 2⌋ = 40 := by
      rw [Int.floor_eq_iff]
      norm_num
    rw [h405] at hfl
    exact hfl

/-- A `filterMap` over a list on which the function never fails keeps the
length. -/
theorem length_filterMap_of_isSome {α β : Type} (f : α → Option β) (l : List α)
    (h : ∀ a ∈ l, (f a).isSome = true) : (l.filterMap f).length = l.length := by
  induction l with
  | nil => rfl
  | cons a t ih =>
    obtain ⟨b, hb⟩ := Option.isSome_iff_exists.mp (h a (by simp))
    rw [List.filterMap_cons, hb]
    simp only [List.length_cons]
    rw [ih (fun v hv => h v (by simp [hv]))]

/-- With the container present, a non-empty explosion key list, and an
explosion map resolving every key, `createExplosion` appends exactly one
burst of `(particleCount distance).toNat` particles at the given point. -/
theorem createExplosion_bursts (pick : ℕ → ℕ) (st : CState) (x y : ℚ) (dist : ℝ)
    (hc : st.containerPresent = true) (hk : st.explosionKeys ≠ [])
    (hm : ∀ k ∈ st.explosionKeys, (st.explosionMap.lookup k).isSome = true) :
    (createExplosion pick st x y dist).bursts =
      st.bursts ++ [⟨x, y, dist, (particleCount dist).toNat⟩] := by
  have hlen : st.explosionKeys.length ≠ 0 := by
    simpa [List.length_eq_zero] using hk
  have hpos : 0 < st.explosionKeys.length := Nat.pos_of_ne_zero hlen
  unfold createExplosion
  rw [if_neg (not_or.mpr ⟨by simp [hc], hlen⟩)]
  dsimp only
  have hspawn : ((List.range ((jsRound (gsapClamp 3 40 (dist / 10))).toNat)).filterMap
      fun i => st.explosionMap.lookup
        (st.explosionKeys.getD (pick i % st.explosionKeys.length) emptyKey)).length =
      (jsRound (gsapClamp 3 40 (dist / 10))).toNat := by
    rw [length_filterMap_of_isSome, List.length_range]
    intro i _
    apply hm
    have hmod : pick i % st.explosionKeys.length < st.explosionKeys.length :=
      Nat.mod_lt _ hpos
    rw [List.getD_eq_getElem?_getD, List.getElem?_eq_getElem hmod]
    exact List.getElem_mem _
  rw [hspawn]
  rfl

/-- Claim C5: on release the burst spawns exactly
`round(clamp(3, 40, distance / 10))` particles; this count is monotone
non-decreasing in the distance and always lies in `[3, 40]`; in particular
distance 0 yields 3 particles and distance 500 yields 40 (saturating, not
50). -/
theorem burst_particle_count (pick : ℕ → ℕ) (st : CState) (x y : ℚ) (dist : ℝ)
    (hc : st.containerPresent = true) (hk : st.explosionKeys ≠ [])
    (hm : ∀ k ∈ st.explosionKeys, (st.explosionMap.lookup k).isSome = true) :
    ((createExplosion pick st x y dist).bursts =
      st.bursts ++ [⟨x, y, dist, (particleCount dist).toNat⟩]) ∧
    (∀ d₁ d₂ : ℝ, d₁ ≤ d₂ → particleCount d₁ ≤ particleCount d₂) ∧
    (∀ d : ℝ, 3 ≤ particleCount d ∧ particleCount d ≤ 40) ∧
    particleCount 0 = 3 ∧ particleCount 500 = 40 :=
  ⟨createExplosion_bursts pick st x y dist hc hk hm,
   particleCount_mono, particleCount_bounds,
   particleCount_zero, particleCount_saturates⟩

/-- Concrete instantiation of `burst_particle_count`: a release at pull
distance 0 appends a burst of exactly 3 particles. -/
theorem burst_particle_count_witness :
    (stDrawing.containerPresent = true ∧ stDrawing.explosionKeys ≠ []) ∧
    (createExplosion (fun _ => 0) stDrawing 1 2 0).bursts =
      stDrawing.bursts ++ [⟨1, 2, 0, (particleCount 0).toNat⟩] ∧
    particleCount 0 = 3 ∧ particleCount 500 = 40 := by
  have h := burst_particle_count (fun _ => 0) stDrawing 1 2 0 rfl
    (by simp [stDrawing])
    (by intro k hk; simp [stDrawing] at hk; subst hk; rfl)
  exact ⟨⟨rfl, by simp [stDrawing]⟩, h.1, h.2.2.2⟩

/-- Claim C6: during a drag update at raw distance `d` from the origin, the
rendered line end collapses to the origin when `d < 30` (dead zone), and
otherwise equals `origin + (current - origin) * (d - 30) / d`; at `d = 130`
this puts the end 100 pixels from the origin along the pull direction. -/
theorem pull_visual_mapping (st : CState) (x y : ℚ) (h : st.isDrawing = true)
    (line : LineEl) (img : ImageEl) (circ : CircleEl)
    (hl : st.currentLine = some line) (hi : st.startImage = some img)
    (hc : st.circle = some circ) :
    ∃ l2 : LineEl, (updateDrawing st x y).currentLine = some l2 ∧
      (Real.sqrt (((x - st.startX) * (x - st.startX) +
          (y - st.startY) * (y - st.startY) : ℚ)) < 30 →
        l2.x2 = (st.startX : ℝ) ∧ l2.y2 = (st.startY : ℝ)) ∧
      (30 ≤ Real.sqrt (((x - st.startX) * (x - st.startX) +
          (y - st.startY) * (y - st.startY) : ℚ)) →
        l2.x2 = (st.startX : ℝ) + ((x - st.startX : ℚ) : ℝ) *
          ((Real.sqrt (((x - st.startX) * (x - st.startX) +
            (y - st.startY) * (y - st.startY) : ℚ)) - 30) /
           Real.sqrt (((x - st.startX) * (x - st.startX) +
            (y - st.startY) * (y - st.startY) : ℚ))) ∧
        l2.y2 = (st.startY : ℝ) + ((y - st.startY : ℚ) : ℝ) *
          ((Real.sqrt (((x - st.startX) * (x - st.startX) +
            (y - st.startY) * (y - st.startY) : ℚ)) - 30) /
           Real.sqrt (((x - st.startX) * (x - st.startX) +
            (y - st.startY) * (y - st.startY) : ℚ)))) ∧
      (Real.sqrt (((x - st.startX) * (x - st.startX) +
          (y - st.startY) * (y - st.startY) : ℚ)) = 130 →
        l2.x2 = (st.startX : ℝ) + ((x - st.startX : ℚ) : ℝ) * (100 / 130) ∧
        l2.y2 = (st.startY : ℝ) + ((y - st.startY : ℚ) : ℝ) * (100 / 130)) := by
  obtain ⟨isD, sx, sy, ld, ik, im, ek, em, cl, si, ci, pend, hmode, al, cp, ctp, bs⟩ := st
  dsimp only at h hl hi hc ⊢
  subst h hl hi hc
  refine ⟨_, rfl, ?_, ?_, ?_⟩
  · intro hlt
    dsimp only
    constructor
    · exact if_pos hlt
    · exact if_pos hlt
  · intro hge
    dsimp only
    have hne : ¬ (Real.sqrt (((x - sx) * (x - sx) + (y - sy) * (y - sy) : ℚ)) < 30) :=
      not_lt.mpr hge
    have hmax : max (Real.sqrt (((x - sx) * (x - sx) + (y - sy) * (y - sy) : ℚ)))
        ((1 : ℝ) / 1000) =
        Real.sqrt (((x - sx) * (x - sx) + (y - sy) * (y - sy) : ℚ)) :=
      max_eq_left (by linarith)
    constructor
    · rw [if_neg hne, hmax]
    · rw [if_neg hne, hmax]
  · intro h130
    dsimp only
    have hge : (30 : ℝ) ≤ Real.sqrt (((x - sx) * (x - sx) + (y - sy) * (y - sy) : ℚ)) := by
      rw [h130]; norm_num
    have hne : ¬ (Real.sqrt (((x - sx) * (x - sx) + (y - sy) * (y - sy) : ℚ)) < 30) :=
      not_lt.mpr hge
    have hmax : max (Real.sqrt (((x - sx) * (x - sx) + (y - sy) * (y - sy) : ℚ)))
        ((1 : ℝ) / 1000) =
        Real.sqrt (((x - sx) * (x - sx) + (y - sy) * (y - sy) : ℚ)) :=
      max_eq_left (by linarith)
    constructor
    · rw [if_neg hne, hmax, h130]; norm_num
    · rw [if_neg hne, hmax, h130]; norm_num

/-- Concrete instantiation of `pull_visual_mapping`: pulling to raw
distance 130 puts the rendered line end 100 pixels from the origin along
the pull direction. -/
theorem pull_visual_mapping_witness :
    stDrawing.isDrawing = true ∧
    ∃ l2 : LineEl, (updateDrawing stDrawing 130 0).currentLine = some l2 ∧
      l2.x2 = (stDrawing.startX : ℝ) + ((130 - stDrawing.startX : ℚ) : ℝ) * (100 / 130) ∧
      l2.y2 = (stDrawing.startY : ℝ) + ((0 - stDrawing.startY : ℚ) : ℝ) * (100 / 130) := by
  have hs : Real.sqrt (((130 - stDrawing.startX) * (130 - stDrawing.startX) +
      (0 - stDrawing.startY) * (0 - stDrawing.startY) : ℚ)) = 130 := by
    have hcast : (((130 - stDrawing.startX) * (130 - stDrawing.startX) +
        (0 - stDrawing.startY) * (0 - stDrawing.startY) : ℚ) : ℝ) = 130 ^ 2 := by
      norm_num [stDrawing]
    rw [hcast]
    exact Real.sqrt_sq (by norm_num)
  obtain ⟨l2, hl2, _, _, h130⟩ := pull_visual_mapping stDrawing 130 0 rfl
    ⟨0, 0, 0, 0⟩ ⟨-25, -25, 50, 50, emptyKey, 1, 0⟩ ⟨0, 0, 30, 1, 0⟩ rfl rfl rfl
  exact ⟨rfl, l2, hl2, h130 hs⟩

/-- A successful `startDrawing` from idle with assets available: it opens
the session at `(x, y)`, touching neither `lastDistance` nor the bursts. -/
theorem startDrawing_success (pick : ℕ) (st : CState) (x y : ℚ)
    (h1 : st.isDrawing = false) (h2 : st.canvasPresent = true)
    (h3 : st.assetsLoaded = true) (h4 : st.imageKeys ≠ [])
    (h5 : ∀ k ∈ st.imageKeys, (st.imageMap.lookup k).isSome = true) :
    ∃ src, startDrawing pick st x y =
      { st with
        isDrawing := true
        startX := x
        startY := y
        currentLine := some ⟨x, y, (x : ℝ), (y : ℝ)⟩
        circle := some ⟨x, y, 30, 1, 0⟩
        startImage := some ⟨x - 25, y - 25, 50, 50, src, 1, 0⟩ } := by
  have hlen : st.imageKeys.length ≠ 0 := by simpa [List.length_eq_zero] using h4
  have hpos : 0 < st.imageKeys.length := Nat.pos_of_ne_zero hlen
  have hmem : st.imageKeys.getD (pick % st.imageKeys.length) emptyKey ∈ st.imageKeys := by
    have hmod : pick % st.imageKeys.length < st.imageKeys.length := Nat.mod_lt _ hpos
    rw [List.getD_eq_getElem?_getD, List.getElem?_eq_getElem hmod]
    exact List.getElem_mem _
  obtain ⟨src, hsrc⟩ := Option.isSome_iff_exists.mp (h5 _ hmem)
  refine ⟨src, ?_⟩
  unfold startDrawing
  rw [if_neg (by simp [h1, h2, h3, hlen]), hsrc]

/-- The function `endDrawing` on an open session appends one burst carrying the stored
`lastDistance`, then resets the stored distance to 0. -/
theorem endDrawing_bursts (p : ℕ → ℕ) (st : CState) (hD : st.isDrawing = true)
    (hc : st.containerPresent = true) (hk : st.explosionKeys ≠ [])
    (hm : ∀ k ∈ st.explosionKeys, (st.explosionMap.lookup k).isSome = true) :
    (endDrawing p st).bursts = st.bursts ++
      [⟨st.startX, st.startY, st.lastDistance, (particleCount st.lastDistance).toNat⟩] ∧
    (endDrawing p st).lastDistance = 0 := by
  constructor
  · unfold endDrawing
    rw [if_pos hD]
    dsimp only
    exact createExplosion_bursts p st st.startX st.startY st.lastDistance hc hk hm
  · unfold endDrawing
    rw [if_pos hD]

/-- Claim C10: `endDrawing` spawns the burst with exactly the stored
`lastDistance` of the session and only afterwards resets it to 0; hence a
session that is started from an idle state with `lastDistance = 0` and
ended with no intervening update bursts with distance 0, i.e. the minimum
3 particles. -/
theorem endDraw_uses_lastDistance (p : ℕ → ℕ) (pick : ℕ) (st : CState) (x y : ℚ) :
    (st.isDrawing = true → st.containerPresent = true → st.explosionKeys ≠ [] →
      (∀ k ∈ st.explosionKeys, (st.explosionMap.lookup k).isSome = true) →
      (endDrawing p st).bursts = st.bursts ++
        [⟨st.startX, st.startY, st.lastDistance, (particleCount st.lastDistance).toNat⟩] ∧
      (endDrawing p st).lastDistance = 0) ∧
    (st.isDrawing = false → st.lastDistance = 0 →
      st.canvasPresent = true → st.assetsLoaded = true → st.imageKeys ≠ [] →
      (∀ k ∈ st.imageKeys, (st.imageMap.lookup k).isSome = true) →
      st.containerPresent = true → st.explosionKeys ≠ [] →
      (∀ k ∈ st.explosionKeys, (st.explosionMap.lookup k).isSome = true) →
      (endDrawing p (startDrawing pick st x y)).bursts = st.bursts ++ [⟨x, y, 0, 3⟩]) := by
  constructor
  · intro hD hc hk hm
    exact endDrawing_bursts p st hD hc hk hm
  · intro hD hld hcv hal hik him hc hek hem
    obtain ⟨src, hst⟩ := startDrawing_success pick st x y hD hcv hal hik him
    have hD2 : (startDrawing pick st x y).isDrawing = true := by rw [hst]
    have hc2 : (startDrawing pick st x y).containerPresent = true := by
      rw [hst]; exact hc
    have hek2 : (startDrawing pick st x y).explosionKeys ≠ [] := by
      rw [hst]; exact hek
    have hem2 : ∀ k ∈ (startDrawing pick st x y).explosionKeys,
        ((startDrawing pick st x y).explosionMap.lookup k).isSome = true := by
      rw [hst]; exact hem
    rw [(endDrawing_bursts p (startDrawing pick st x y) hD2 hc2 hek2 hem2).1, hst]
    dsimp only
    rw [hld, particleCount_zero]
    rfl

/-- A concrete idle state with assets loaded and `lastDistance = 0`. -/
noncomputable def stIdle : CState :=
  { stDrawing with
    isDrawing := false
    currentLine := none
    startImage := none
    circle := none }

/-- Concrete instantiation of `endDraw_uses_lastDistance`: starting and
immediately ending a session bursts with distance 0 and 3 particles. -/
theorem endDraw_uses_lastDistance_witness :
    (stIdle.isDrawing = false ∧ stIdle.lastDistance = 0) ∧
    (endDrawing (fun _ => 0) (startDrawing 0 stIdle 9 9)).bursts =
      stIdle.bursts ++ [⟨9, 9, 0, 3⟩] := by
  have h := (endDraw_uses_lastDistance (fun _ => 0) 0 stIdle 9 9).2 rfl rfl rfl rfl
    (by simp [stIdle, stDrawing])
    (by intro k hk; simp [stIdle, stDrawing] at hk; subst hk; rfl)
    rfl
    (by simp [stIdle, stDrawing])
    (by intro k hk; simp [stIdle, stDrawing] at hk; subst hk; rfl)
  exact ⟨⟨rfl, rfl⟩, h⟩

/-- A concrete state in gesture mode with an open session and an armed
release-debounce timer (its explosion assets are empty so that the burst of
a firing timer is a no-op, which keeps the counterexample evaluation
closed-form). -/
noncomputable def stPendingRelease : CState :=
  { isDrawing := true
    startX := 0
    startY := 0
    lastDistance := 0
    imageKeys := []
    imageMap := []
    explosionKeys := []
    explosionMap := []
    currentLine := some ⟨0, 0, 0, 0⟩
    startImage := some ⟨-25, -25, 50, 50, emptyKey, 1, 0⟩
    circle := some ⟨0, 0, 30, 1, 0⟩
    releaseTimeoutPending := true
    isHandMode := true
    assetsLoaded := true
    canvasPresent := true
    containerPresent := true
    bursts := [] }

/-- Counterexample to claim C7 as stated: disabling gesture mode while a
release-debounce timer is pending does not cancel the timer — no effect of
`SlingshotCanvas` watches `isHandMode` to clear `releaseTimeoutRef` (the
clearing cleanup at lines 112-118 runs only on unmount).  Concretely, after
`setHandMode false` on a drawing state with an armed timer the pending flag
is still set, and the timer firing still runs `endDrawing`, closing the
session. -/
theorem modeDisable_leaves_timer_armed :
    stPendingRelease.isDrawing = true ∧
    stPendingRelease.releaseTimeoutPending = true ∧
    (setHandMode false stPendingRelease).isHandMode = false ∧
    (setHandMode false stPendingRelease).releaseTimeoutPending = true ∧
    (timerFire (fun _ => 0) (setHandMode false stPendingRelease)).isDrawing = false ∧
    (timerFire (fun _ => 0) (setHandMode false stPendingRelease)).releaseTimeoutPending
      = false :=
  ⟨rfl, rfl, rfl, rfl, rfl, rfl⟩

/-- Claim C7 as amended: unmounting the component cancels any pending
release-debounce timer, after which the timer never fires `endDrawing`; and
with gesture mode disabled the handler ignores every gesture sample.
(Disabling gesture mode alone does not cancel a pending timer, per
`modeDisable_leaves_timer_armed`.) -/
theorem unmount_cancels_release_timer (p : ℕ → ℕ) (pick : ℕ) (st : CState)
    (d : HandInputData) :
    (unmountCleanup st).releaseTimeoutPending = false ∧
    timerFire p (unmountCleanup st) = unmountCleanup st ∧
    (st.isHandMode = false → handleHandUpdate pick st d = st) := by
  refine ⟨rfl, rfl, ?_⟩
  intro hm
  unfold handleHandUpdate
  rw [if_neg (by simp [hm])]

/-- Concrete instantiation of `unmount_cancels_release_timer` on a state
with gesture mode off. -/
theorem unmount_cancels_release_timer_witness :
    initialState.isHandMode = false ∧
    (unmountCleanup initialState).releaseTimeoutPending = false ∧
    timerFire (fun _ => 0) (unmountCleanup initialState) = unmountCleanup initialState ∧
    handleHandUpdate 0 initialState ⟨⟨1, 2⟩, true, true⟩ = initialState := by
  obtain ⟨h1, h2, h3⟩ := unmount_cancels_release_timer (fun _ => 0) 0 initialState
    ⟨⟨1, 2⟩, true, true⟩
  exact ⟨rfl, h1, h2, h3 rfl⟩
